import Mathlib

/-!
Verification of the Mimic capture-and-compile pipeline (src/mimic/main.py).

This file embeds the parts of the program relevant to the frozen claims as
executable Lean definitions: the sensitivity classifier, the keystroke
aggregator state machine, the click handler, the session-file teardown,
the privacy-blur capture loop, the screenshot sampler, the cost estimator,
the model-profile resolver and the compile-recording control flow.
Machine floats (timestamps, blur alpha, dollar costs) are modelled as
rationals; the file system is modelled as explicit state records; external
library calls (PIL image ops) are abstract function parameters.
-/

namespace Mimic

/-! ## Sensitivity classifier (main.py line 44 and its uses) -/

/-- The fixed keyword list `SENSITIVE_KEYWORDS` from main.py line 44. -/
def SENSITIVE_KEYWORDS : List String :=
  ["password", "secret", "token", "key", "credit", "ssn", "bank"]

/-- Character-list version of "pat starts the list s" (used to embed
Python's substring operator). -/
def charsLeadWith : List Char → List Char → Bool
  | [], _ => true
  | _ :: _, [] => false
  | p :: ps, c :: cs => p == c && charsLeadWith ps cs

/-- Character-list version of "pat occurs somewhere in s". -/
def charsHaveSub (pat : List Char) : List Char → Bool
  | [] => charsLeadWith pat []
  | c :: cs => charsLeadWith pat (c :: cs) || charsHaveSub pat cs

/-- Embedding of Python's `sub in s` substring test on strings. -/
def strContains (s sub : String) : Bool :=
  charsHaveSub sub.data s.data

/-- Embedding of Python's `str.lower()`, character by character (the
program only lowercases element roles/names, typed text and model names,
all compared against ASCII keywords). -/
def pyLower (s : String) : String :=
  String.mk (s.data.map Char.toLower)

/-- Embedding of the keyword loop in `flush_keystroke_buffer`
(main.py lines 563-568): lowercase the typed text and test each keyword
as a substring. -/
def classifyTextSensitive (typed : String) : Bool :=
  SENSITIVE_KEYWORDS.any (fun kw => strContains (pyLower typed) kw)

/-! ## Data model: elements and actions -/

/-- Accessibility metadata attached to a click (main.py lines 268-273). -/
structure ElementInfo where
  role : String
  name : String
  description : String
  parent : String
deriving DecidableEq

/-- One entry of the Action Log (main.py: the dicts appended to `actions`).
The `sensitive` flag models presence of the optional `"sensitive": True`
key (`false` means the key is absent). Timestamps are elapsed seconds
since session start, modelled as rationals. -/
inductive Action where
  | click (x y : Int) (button : String) (timestamp : ℚ)
      (element : Option ElementInfo) (sensitive : Bool)
  | typed_text (text : String) (length : Nat) (timestamp : ℚ) (sensitive : Bool)
  | special_key (key : String) (timestamp : ℚ)
deriving DecidableEq

/-- Embedding of the sensitivity decision inside `on_click`
(main.py lines 521-534): keyword substring match on the lowercased element
name or role, or an exact match of the role against the password-field
role strings. -/
def classifyClickSensitive (e : ElementInfo) : Bool :=
  (SENSITIVE_KEYWORDS.any fun kw =>
      strContains (pyLower e.name) kw || strContains (pyLower e.role) kw)
  || (pyLower e.role == "password text" || pyLower e.role == "password"
        || pyLower e.role == "secret")

/-- Embedding of `on_click` (main.py lines 505-548): on a press, build the
click action (with the element payload stored as-is and the sensitive flag
from the classifier) and append it; on a release, append nothing. The
return value is the appended action, if any. -/
def on_click (x y : Int) (button : String) (pressed : Bool) (timestamp : ℚ)
    (element_info : Option ElementInfo) : Option Action :=
  if pressed then
    some (match element_info with
      | some e =>
          Action.click x y button timestamp (some e) (classifyClickSensitive e)
      | none => Action.click x y button timestamp none false)
  else
    none

/-! ## Keystroke aggregator (main.py lines 550-617) -/

/-- The aggregator's mutable state: `keystroke_buffer` and
`buffer_start_time` (main.py lines 551-552). -/
structure KeyState where
  keystroke_buffer : List Char
  buffer_start_time : Option ℚ
deriving DecidableEq

/-- A key event as seen by `on_key_press`: a character key (`key.char`
set), a key code whose `char` attribute is `None` (falsy, ignored), or a
special key (reading `.char` raises `AttributeError`). -/
inductive Key where
  | char (c : Char)
  | nochar
  | special (name : String)
deriving DecidableEq

/-- Embedding of Python's `x or y` where `x` is an optional float: both
`None` and `0.0` are falsy, so the fallback is used for either. -/
def pyOrQ (o : Option ℚ) (fallback : ℚ) : ℚ :=
  match o with
  | some t => if t = 0 then fallback else t
  | none => fallback

/-- Embedding of `flush_keystroke_buffer` (main.py lines 554-592): empty
buffer is a no-op; otherwise classify the concatenated text, store
`"[REDACTED]"` when sensitive, emit one `typed_text` action carrying
`buffer_start_time[0] or (time.time() - start_time)` — the buffer's start
timestamp unless it is absent OR exactly `0.0` (falsy in Python), in
which case the flush-time elapsed is used — and the ORIGINAL character
count, then clear the buffer and its timestamp. -/
def flush_keystroke_buffer (st : KeyState) (now : ℚ) : KeyState × List Action :=
  if st.keystroke_buffer.isEmpty then (st, [])
  else
    let typed : String := String.mk st.keystroke_buffer
    let timestamp : ℚ := pyOrQ st.buffer_start_time now
    let is_sensitive : Bool := classifyTextSensitive typed
    let stored_text : String := if is_sensitive then "[REDACTED]" else typed
    (⟨[], none⟩,
      [Action.typed_text stored_text typed.length timestamp is_sensitive])

/-- Embedding of `on_key_press` (main.py lines 595-617): a character key
records the buffer start time when unset and appends to the buffer; a
key with no character is ignored; a special key flushes the buffer and
then emits a `special_key` action. -/
def on_key_press (st : KeyState) (k : Key) (now : ℚ) : KeyState × List Action :=
  match k with
  | Key.char c =>
      let st1 := if st.buffer_start_time.isNone
                 then { st with buffer_start_time := some now }
                 else st
      ({ st1 with keystroke_buffer := st1.keystroke_buffer ++ [c] }, [])
  | Key.nochar => (st, [])
  | Key.special name =>
      let fl := flush_keystroke_buffer st now
      (fl.1, fl.2 ++ [Action.special_key name now])

/-- Run the key listener over a sequence of timed key events, collecting
the actions appended to the Action Log in order. -/
def runKeys : KeyState → List (Key × ℚ) → KeyState × List Action
  | st, [] => (st, [])
  | st, kt :: rest =>
      let step := on_key_press st kt.1 kt.2
      let restRes := runKeys step.1 rest
      (restRes.1, step.2 ++ restRes.2)

/-- A run of plain character key presses, each with its elapsed time. -/
def charKeys (cs : List (Char × ℚ)) : List (Key × ℚ) :=
  cs.map (fun p => (Key.char p.1, p.2))

/-! ## Session-file teardown (main.py lines 418-423) -/

/-- The on-disk session files: whether `.mimic_state.json` and
`.mimic_stop` exist. -/
structure SessionFiles where
  stateFile : Bool
  stopFile : Bool
deriving DecidableEq

/-- Embedding of `clear_state` (main.py lines 418-423): unlink each of the
two files, each guarded by an existence check (so a second run finds
nothing to delete and does not error). -/
def clear_state (fs : SessionFiles) : SessionFiles :=
  let fs1 := if fs.stateFile then { fs with stateFile := false } else fs
  if fs1.stopFile then { fs1 with stopFile := false } else fs1

/-! ## Privacy blur and the capture loop (main.py lines 151-168, 625-666) -/

/-- Embedding of `apply_privacy_blur` (main.py lines 151-168). The PIL
image type and its operations are abstract parameters: `gaussianBlur img r`
stands for `img.filter(ImageFilter.GaussianBlur(radius=r))` and
`blend a b alpha` for `Image.blend(a, b, alpha)`. The code blurs at the
given strength, blurs again at radius 20, then blends 90% blurred with
10% original. -/
def apply_privacy_blur {Img : Type} (gaussianBlur : Img → Nat → Img)
    (blend : Img → Img → ℚ → Img) (img : Img) (blur_strength : Nat) : Img :=
  let blurred := gaussianBlur img blur_strength
  let blurred2 := gaussianBlur blurred 20
  blend img blurred2 (9 / 10)

/-- One observed iteration environment of the capture loop: whether the
stop-signal file exists, the elapsed time, and the frame `sct.grab` would
capture at that instant. -/
structure CaptureStep (Img : Type) where
  stopFileExists : Bool
  elapsed : ℚ
  frame : Img

/-- Embedding of the screenshot capture loop (main.py lines 630-666): each
iteration first checks the stop signal, then the 60-second maximum
duration, then captures one frame, applies `apply_privacy_blur` (at the
default strength 35) when privacy mode is set, and writes the result. The
returned list is the sequence of images written to disk. -/
def capture_loop {Img : Type} (gaussianBlur : Img → Nat → Img)
    (blend : Img → Img → ℚ → Img) (privacy : Bool) :
    List (CaptureStep Img) → List Img
  | [] => []
  | step :: rest =>
      if step.stopFileExists then []
      else if 60 ≤ step.elapsed then []
      else (if privacy
            then apply_privacy_blur gaussianBlur blend step.frame 35
            else step.frame)
           :: capture_loop gaussianBlur blend privacy rest

/-! ## Screenshot sampler (main.py lines 782-787) -/

/-- Helper for `everyNth`: walk the list keeping an element exactly when
the skip counter is 0, and resetting the counter to `step - 1` after a
kept element. -/
def everyNthAux {α : Type} (step : Nat) : List α → Nat → List α
  | [], _ => []
  | x :: xs, 0 => x :: everyNthAux step xs (step - 1)
  | _ :: xs, c + 1 => everyNthAux step xs c

/-- Embedding of Python's extended slice `l[::step]`: every `step`-th
element starting at index 0 (callers pass `step` at least 1). -/
def everyNth {α : Type} (l : List α) (step : Nat) : List α :=
  everyNthAux step l 0

/-- Embedding of the screenshot cap in `compile_recording` (main.py lines
782-787, with `max_screenshots = 25`): with more than 25 files, compute
`step = size / 25` and take `files[::step][:25]`; otherwise keep all
files. -/
def sample_screenshots {α : Type} (screenshot_files : List α) : List α :=
  if screenshot_files.length > 25 then
    (everyNth screenshot_files (screenshot_files.length / 25)).take 25
  else screenshot_files

/-! ## Cost estimator (main.py lines 720-746) -/

/-- The dict returned by `estimate_cost`. Dollar amounts are rationals. -/
structure CostEstimate where
  input_tokens : Nat
  output_tokens : Nat
  input_cost : ℚ
  output_cost : ℚ
  total_cost : ℚ
deriving DecidableEq

/-- Embedding of `estimate_cost` (main.py lines 720-746): a pure function
of the screenshot count and the action count. -/
def estimate_cost (num_screenshots num_actions : Nat) : CostEstimate :=
  let image_tokens := num_screenshots * 1600
  let text_tokens := 500 + num_actions * 20
  let input_tokens := image_tokens + text_tokens
  let output_tokens : Nat := 2000
  let input_cost : ℚ := ((input_tokens : ℚ) / 1000000) * 3
  let output_cost : ℚ := ((output_tokens : ℚ) / 1000000) * 15
  { input_tokens := input_tokens
    output_tokens := output_tokens
    input_cost := input_cost
    output_cost := output_cost
    total_cost := input_cost + output_cost }

/-! ## Model-profile resolution (main.py lines 46-65, 129-148) -/

/-- One entry of `SUPPORTED_MODELS` (main.py lines 47-63). -/
structure ModelConfig where
  provider : String
  model_id : String
  description : String
deriving DecidableEq

/-- The "sonnet" profile. -/
def sonnetModel : ModelConfig :=
  { provider := "anthropic"
    model_id := "claude-sonnet-4-5-20250929"
    description := "Claude Sonnet 4.5 - Fast and capable (default)" }

/-- The "opus" profile. -/
def opusModel : ModelConfig :=
  { provider := "anthropic"
    model_id := "claude-opus-4-5-20250114"
    description := "Claude Opus 4.5 - Most capable, higher cost" }

/-- The "haiku" profile. -/
def haikuModel : ModelConfig :=
  { provider := "anthropic"
    model_id := "claude-haiku-3-5-20241022"
    description := "Claude Haiku 3.5 - Fastest, lowest cost" }

/-- `SUPPORTED_MODELS` (main.py lines 47-63) as an association list. -/
def SUPPORTED_MODELS : List (String × ModelConfig) :=
  [("sonnet", sonnetModel), ("opus", opusModel), ("haiku", haikuModel)]

/-- `DEFAULT_MODEL` (main.py line 65). -/
def DEFAULT_MODEL : String := "sonnet"

/-- Python truthiness on an optional string: `None` and the empty string
are falsy. -/
def truthyStr (o : Option String) : Option String :=
  match o with
  | some s => if s = "" then none else some s
  | none => none

/-- The fallback chain at the top of `get_model_config` (main.py lines
131-140): argument, then the `MIMIC_MODEL` environment variable, then the
config file's `model` entry defaulting to `DEFAULT_MODEL`, then
`DEFAULT_MODEL`; each step is taken only when the previous value is falsy
(absent or empty). -/
def resolveModelName (model_name envModel configModel : Option String) :
    String :=
  match truthyStr model_name with
  | some s => s
  | none =>
      match truthyStr envModel with
      | some s => s
      | none =>
          match truthyStr (some (configModel.getD DEFAULT_MODEL)) with
          | some s => s
          | none => DEFAULT_MODEL

/-- Embedding of `get_model_config` (main.py lines 129-148): resolve the
name through the fallback chain, lowercase it, and look it up in
`SUPPORTED_MODELS`; an unknown name prints a warning and uses
`DEFAULT_MODEL`. The boolean in the result records whether the warning
was printed. -/
def get_model_config (model_name envModel configModel : Option String) :
    ModelConfig × Bool :=
  match SUPPORTED_MODELS.lookup
      (pyLower (resolveModelName model_name envModel configModel)) with
  | some cfg => (cfg, false)
  | none => ((SUPPORTED_MODELS.lookup DEFAULT_MODEL).getD sonnetModel, true)

/-! ## Compile control flow (main.py lines 749-936) -/

/-- The persisted task directory as `compile_recording` reads it:
whether it exists, the parsed `actions.json` when that file exists, and
the sorted list of screenshot file names. -/
structure TaskDir where
  dirExists : Bool
  actionsFile : Option (List Action)
  screenshots : List String
deriving DecidableEq

/-- The ways `compile_recording` exits non-zero before doing any work
(main.py lines 753-757, 762-764, 778-780). -/
inductive CompileErr where
  | noApiKey
  | notFound
  | noScreenshots
deriving DecidableEq

/-- What a completed `compile_recording` invocation did: the cost estimate
it displayed, the action list it used, how many sampled screenshots it
embedded, whether it called the generative service, and whether it wrote
the local Skill Artifact and the external platform copy. -/
structure CompileResult where
  estimate : CostEstimate
  actionsUsed : List Action
  sampledCount : Nat
  networkCalled : Bool
  skillWritten : Bool
  moltbotWritten : Bool
deriving DecidableEq

/-- Embedding of the control flow of `compile_recording` (main.py lines
749-936): fail without an API key; fail if the task directory is missing;
load `actions.json` when present, else use the empty list; fail if there
are no screenshots; sample the screenshots and compute the cost estimate;
in cost-estimate-only mode return having written nothing and called
nothing; otherwise call the service, write the Skill Artifact and, when
the external platform directory validates, the external copy
(`moltbotOk`). -/
def compile_recording (apiKey : Bool) (task : TaskDir)
    (cost_only moltbotOk : Bool) : Except CompileErr CompileResult :=
  if !apiKey then Except.error CompileErr.noApiKey
  else if !task.dirExists then Except.error CompileErr.notFound
  else
    let actions := task.actionsFile.getD []
    if task.screenshots.isEmpty then Except.error CompileErr.noScreenshots
    else
      let files := sample_screenshots task.screenshots
      let cost := estimate_cost files.length actions.length
      if cost_only then
        Except.ok
          { estimate := cost
            actionsUsed := actions
            sampledCount := files.length
            networkCalled := false
            skillWritten := false
            moltbotWritten := false }
      else
        Except.ok
          { estimate := cost
            actionsUsed := actions
            sampledCount := files.length
            networkCalled := true
            skillWritten := true
            moltbotWritten := moltbotOk }

/-- A concrete clicked element whose name contains the keyword
"password", used as a counterexample input. -/
def passwordFieldElem : ElementInfo :=
  { role := "entry", name := "Password", description := "", parent := "" }

end Mimic

namespace Mimic

/-! ## Sanity lemmas shared by several claims -/

/-- The length of a string built from a character list is the list length. -/
theorem str_mk_length (l : List Char) : (String.mk l).length = l.length := rfl

/-- Flushing a non-empty buffer emits exactly one `typed_text` action
carrying the original character count and the Python-or timestamp (the
recorded start time unless it is exactly 0, in which case the flush-time
elapsed), and resets the state. -/
theorem flush_nonempty (buf : List Char) (t0 now : ℚ) (hne : buf ≠ []) :
    flush_keystroke_buffer ⟨buf, some t0⟩ now
      = (⟨[], none⟩,
         [Action.typed_text
            (if classifyTextSensitive (String.mk buf) then "[REDACTED]"
             else String.mk buf)
            buf.length (if t0 = 0 then now else t0)
            (classifyTextSensitive (String.mk buf))]) := by
  unfold flush_keystroke_buffer
  simp [List.isEmpty_iff, hne, str_mk_length, pyOrQ]

/-- Flushing a non-empty sensitive buffer stores the redaction marker and
the original character count. -/
theorem flush_sensitive (buf : List Char) (t0 now : ℚ) (hne : buf ≠ [])
    (hs : classifyTextSensitive (String.mk buf) = true) :
    flush_keystroke_buffer ⟨buf, some t0⟩ now
      = (⟨[], none⟩,
         [Action.typed_text "[REDACTED]" buf.length
            (if t0 = 0 then now else t0) true]) := by
  rw [flush_nonempty buf t0 now hne, hs]
  simp

/-- Running the key listener over a pure character run from a state whose
start time is already set appends the characters to the buffer, keeps the
start time, and emits no action. -/
theorem runKeys_chars (cs : List (Char × ℚ)) :
    ∀ (buf : List Char) (t0 : ℚ),
      runKeys ⟨buf, some t0⟩ (charKeys cs)
        = (⟨buf ++ cs.map Prod.fst, some t0⟩, []) := by
  induction cs with
  | nil => intro buf t0; simp [charKeys, runKeys]
  | cons p rest ih =>
      intro buf t0
      simp only [charKeys, List.map_cons, runKeys, on_key_press,
        Option.isNone_some, Bool.false_eq_true, if_false]
      rw [show ({ keystroke_buffer := buf, buffer_start_time := some t0 :
            KeyState } : KeyState).keystroke_buffer ++ [p.1]
          = buf ++ [p.1] from rfl]
      have := ih (buf ++ [p.1]) t0
      simp only [charKeys] at this
      simp [this, List.append_assoc]

/-- Actions produced over a concatenation of key-event sequences are the
concatenation of the actions of each, the second starting from the final
state of the first. -/
theorem runKeys_append (l1 l2 : List (Key × ℚ)) :
    ∀ st, runKeys st (l1 ++ l2)
      = ((runKeys (runKeys st l1).1 l2).1,
         (runKeys st l1).2 ++ (runKeys (runKeys st l1).1 l2).2) := by
  induction l1 with
  | nil => intro st; simp [runKeys]
  | cons x rest ih =>
      intro st
      simp only [List.cons_append, runKeys, List.append_eq]
      rw [ih]
      simp [List.append_assoc]

/-! ## C3 -/

/-- C3 counterexample: one character buffered at elapsed time exactly 0,
then a special key at elapsed time 5. The recorded buffer start time is
0, but `buffer_start_time[0] or now` treats 0.0 as falsy, so the emitted
`typed_text` carries the flush-time elapsed 5, not the recorded 0 —
refuting "the typed_text action carries the elapsed-time timestamp
recorded when the first character of the run was buffered". -/
theorem C3_counterexample :
    (runKeys ⟨[], none⟩ [(Key.char 'a', 0),
        (Key.special "Key.enter", 5)]).2
      = [Action.typed_text "a" 1 5 false, Action.special_key "Key.enter" 5]
    ∧ (5 : ℚ) ≠ 0 := by
  constructor
  · decide
  · decide

/-- C3 (amended): a run of N character key presses (N at least 1, here
written as a head character plus a tail) followed by one special key
press produces exactly one `typed_text` action of length N — never N
per-character actions — followed by one `special_key` action. The
`typed_text` action carries the elapsed time recorded when the first
character of the run was buffered whenever that time is nonzero; when the
first character's elapsed time is exactly 0 (falsy under Python's `or`),
the flush-time elapsed — here the special key's time — is carried
instead. -/
theorem C3_amended_keystroke_coalescing (c : Char) (t1 : ℚ)
    (cs : List (Char × ℚ)) (skName : String) (tk : ℚ) :
    (runKeys ⟨[], none⟩
        (charKeys ((c, t1) :: cs) ++ [(Key.special skName, tk)])).2
      = [Action.typed_text
           (if classifyTextSensitive (String.mk (c :: cs.map Prod.fst))
            then "[REDACTED]" else String.mk (c :: cs.map Prod.fst))
           (c :: cs.map Prod.fst).length
           (if t1 = 0 then tk else t1)
           (classifyTextSensitive (String.mk (c :: cs.map Prod.fst))),
         Action.special_key skName tk] := by
  rw [runKeys_append]
  have h1 : runKeys ⟨[], none⟩ (charKeys ((c, t1) :: cs))
      = (⟨c :: cs.map Prod.fst, some t1⟩, []) := by
    simp only [charKeys, List.map_cons, runKeys, on_key_press,
      Option.isNone_none, if_true]
    have := runKeys_chars cs [c] t1
    simp only [charKeys] at this
    simp [this]
  rw [h1]
  simp only [runKeys]
  rw [show on_key_press ⟨c :: cs.map Prod.fst, some t1⟩ (Key.special skName) tk
      = ((flush_keystroke_buffer ⟨c :: cs.map Prod.fst, some t1⟩ tk).1,
         (flush_keystroke_buffer ⟨c :: cs.map Prod.fst, some t1⟩ tk).2
           ++ [Action.special_key skName tk]) from rfl]
  rw [flush_nonempty (c :: cs.map Prod.fst) t1 tk (by simp)]
  simp

/-! ## C10 -/

/-- C10: a flushed keystroke buffer classified as sensitive emits a
`typed_text` action whose `length` field is the number of characters
originally typed (the buffer length), not the length of the stored
redaction marker — the redacted action still reveals the character count.
(The carried timestamp is the Python-or of the recorded start time and
the flush time, stated exactly.) -/
theorem C10_redacted_length_is_original (buf : List Char) (t0 now : ℚ)
    (hne : buf ≠ []) (hs : classifyTextSensitive (String.mk buf) = true) :
    (flush_keystroke_buffer ⟨buf, some t0⟩ now).2
      = [Action.typed_text "[REDACTED]" buf.length
           (if t0 = 0 then now else t0) true] := by
  rw [flush_sensitive buf t0 now hne hs]

/-- Witness for C10 at a concrete input: typing the 11 characters of
"my password" yields a redacted action of length 11 (and 11 is not the
length of "[REDACTED]", which is 10). -/
theorem C10_witness :
    (flush_keystroke_buffer ⟨"my password".data, some 3⟩ 9).2
      = [Action.typed_text "[REDACTED]" 11
           (if (3 : ℚ) = 0 then 9 else 3) true]
    ∧ (11 : Nat) ≠ "[REDACTED]".length :=
  ⟨C10_redacted_length_is_original "my password".data 3 9 (by decide)
      (by decide),
   by decide⟩

/-! ## Sampler lemmas (shared by C2) -/

/-- A pending skip counter of `c` is the same as dropping the next `c`
elements and restarting the slice. -/
theorem everyNthAux_drop {α : Type} (step : Nat) :
    ∀ (l : List α) (c : Nat),
      everyNthAux step l c = everyNth (l.drop c) step := by
  intro l
  induction l with
  | nil => intro c; simp [everyNthAux, everyNth]
  | cons x xs ih =>
      intro c
      cases c with
      | zero => simp [everyNth]
      | succ c =>
          rw [List.drop_succ_cons, ← ih c]
          rfl

/-- Unfolding of the slice on a non-empty list: keep the head, drop the
next `s` elements, continue. -/
theorem everyNth_cons {α : Type} (x : α) (xs : List α) (s : Nat) :
    everyNth (x :: xs) (s + 1) = x :: everyNth (xs.drop s) (s + 1) := by
  show everyNthAux (s + 1) (x :: xs) 0 = _
  rw [show everyNthAux (s + 1) (x :: xs) 0
      = x :: everyNthAux (s + 1) xs s from rfl]
  rw [everyNthAux_drop]

/-- Element `i` of the Python slice `l[::(s+1)]` is element `i * (s+1)`
of `l`. -/
theorem everyNth_get (s : Nat) :
    ∀ (i : Nat) {α : Type} (l : List α),
      (everyNth l (s + 1)).get? i = l.get? (i * (s + 1)) := by
  intro i
  induction i with
  | zero =>
      intro α l
      cases l with
      | nil => simp [everyNth, everyNthAux]
      | cons x xs => simp [everyNth_cons]
  | succ i ih =>
      intro α l
      cases l with
      | nil => simp [everyNth, everyNthAux]
      | cons x xs =>
          have hidx : (i + 1) * (s + 1) = (s + i * (s + 1)) + 1 := by ring
          rw [everyNth_cons, hidx]
          simp only [List.get?_cons_succ]
          rw [ih (xs.drop s), List.get?_drop]

/-- The slice `l[::(s+1)]` has at least `k` elements when `l` has at
least `k * (s+1)`. -/
theorem everyNth_length_ge (s : Nat) :
    ∀ (k : Nat) {α : Type} (l : List α),
      k * (s + 1) ≤ l.length → k ≤ (everyNth l (s + 1)).length := by
  intro k
  induction k with
  | zero => intro α l _; exact Nat.zero_le _
  | succ k ih =>
      intro α l hl
      cases l with
      | nil =>
          exfalso
          have hpos : 0 < (k + 1) * (s + 1) :=
            Nat.mul_pos (Nat.succ_pos k) (Nat.succ_pos s)
          simp only [List.length_nil, Nat.le_zero] at hl
          omega
      | cons x xs =>
          have h2 : (k + 1) * (s + 1) = k * (s + 1) + (s + 1) := by ring
          rw [List.length_cons, h2] at hl
          have h3 : k * (s + 1) ≤ (xs.drop s).length := by
            rw [List.length_drop]
            omega
          have h4 := ih (xs.drop s) h3
          rw [everyNth_cons]
          simp only [List.length_cons]
          omega

/-- With more than 25 screenshots the sampler keeps exactly 25. -/
theorem sample_length {α : Type} (l : List α) (h : 25 < l.length) :
    (sample_screenshots l).length = 25 := by
  unfold sample_screenshots
  rw [if_pos h, List.length_take]
  have hstep : 1 ≤ l.length / 25 :=
    (Nat.one_le_div_iff (by norm_num)).mpr (le_of_lt h)
  obtain ⟨s, hs⟩ : ∃ s, l.length / 25 = s + 1 :=
    ⟨l.length / 25 - 1, by omega⟩
  have h25 : 25 * (s + 1) ≤ l.length := by
    rw [← hs, Nat.mul_comm]
    exact Nat.div_mul_le_self _ _
  have hge := everyNth_length_ge s 25 l h25
  rw [hs]
  omega

/-- With more than 25 screenshots, the `i`-th sampled file (for `i < 25`)
is the input file at index `i * (size / 25)`. -/
theorem sample_get {α : Type} (l : List α) (h : 25 < l.length)
    (i : Nat) (hi : i < 25) :
    (sample_screenshots l).get? i = l.get? (i * (l.length / 25)) := by
  unfold sample_screenshots
  rw [if_pos h, List.get?_take hi]
  obtain ⟨s, hs⟩ : ∃ s, l.length / 25 = s + 1 :=
    ⟨l.length / 25 - 1, by
      have : 1 ≤ l.length / 25 :=
        (Nat.one_le_div_iff (by norm_num)).mpr (le_of_lt h)
      omega⟩
  rw [hs]
  exact everyNth_get s i l

/-! ## C2 -/

/-- C2 counterexample: with 26 screenshots the stride is `26 / 25 = 1`,
so the sampler keeps exactly the first 25 files — a contiguous prefix
that does not span the full index range (index 25 is dropped) — refuting
"the selection is never a contiguous prefix". -/
theorem C2_counterexample :
    sample_screenshots (List.range 26) = (List.range 26).take 25
    ∧ sample_screenshots (List.range 26) = List.range 25 := by
  constructor
  · decide
  · decide

/-- C2 (amended): with at most 25 screenshots every file is used; with
more, the sampler deterministically keeps exactly 25 files, the `i`-th
being the file at index `i * floor(size/25)` (so the stride-0 start and
truncation are as documented); the selection fails to be a contiguous
prefix only when the stride exceeds 1, which holds from 50 files up — for
26 to 49 files the stride is 1 and the selection IS the 25-file prefix. -/
theorem C2_amended_sampler {α : Type} (l : List α) :
    (l.length ≤ 25 → sample_screenshots l = l)
    ∧ (25 < l.length →
        (sample_screenshots l).length = 25
        ∧ ∀ i, i < 25 →
            (sample_screenshots l).get? i = l.get? (i * (l.length / 25)))
    ∧ (∀ n, 50 ≤ n →
        sample_screenshots (List.range n) ≠ (List.range n).take 25) := by
  refine ⟨?_, fun h => ⟨sample_length l h, fun i hi => sample_get l h i hi⟩, ?_⟩
  · intro h
    unfold sample_screenshots
    rw [if_neg (Nat.not_lt.mpr h)]
  · intro n hn hEq
    have hlen : (List.range n).length = n := List.length_range n
    have h25 : 25 < (List.range n).length := by omega
    have hget := sample_get (List.range n) h25 1 (by norm_num)
    rw [hEq, List.get?_take (by norm_num : (1 : Nat) < 25), hlen] at hget
    have hlt : n / 25 < n := Nat.div_lt_self (by omega) (by norm_num)
    rw [List.get?_range (by omega : 1 < n), one_mul,
      List.get?_range hlt] at hget
    have h2 : 2 ≤ n / 25 :=
      (Nat.le_div_iff_mul_le (by norm_num)).mpr (by omega)
    have := Option.some.inj hget
    omega

/-- Witness for C2 (amended) at a concrete input: from 100 screenshots
the sampler keeps exactly 25, and the second kept file is the one at
index 4 (stride 100/25 = 4). -/
theorem C2_amended_witness :
    (sample_screenshots (List.range 100)).length = 25
    ∧ (sample_screenshots (List.range 100)).get? 1
        = (List.range 100).get? 4 := by
  have h := (C2_amended_sampler (List.range 100)).2.1
    (by rw [List.length_range]; norm_num)
  refine ⟨h.1, ?_⟩
  have h2 := h.2 1 (by norm_num)
  rw [List.length_range] at h2
  simpa using h2

/-! ## C1 -/

/-- C1 counterexample: clicking an element whose name contains a sensitive
keyword appends a click action that IS marked sensitive, but whose stored
element payload keeps the original name and role — neither equals the
redaction marker, contradicting the claim that the stored payload equals
the marker. -/
theorem C1_counterexample :
    on_click 100 200 "Button.left" true 5 (some passwordFieldElem)
      = some (Action.click 100 200 "Button.left" 5 (some passwordFieldElem)
          true)
    ∧ passwordFieldElem.name = "Password"
    ∧ passwordFieldElem.name ≠ "[REDACTED]"
    ∧ passwordFieldElem.role ≠ "[REDACTED]" := by
  refine ⟨?_, rfl, by decide, by decide⟩
  have : classifyClickSensitive passwordFieldElem = true := by decide
  simp [on_click, this]

/-- C1 (amended): typed text containing a sensitive keyword
(case-insensitive substring) is marked sensitive and stored as the
redaction marker (carrying the Python-or timestamp, stated exactly); a
click on an element whose name or role contains a sensitive keyword is
marked sensitive, but its stored element payload keeps the original
name/role — the click is flagged, not redacted. -/
theorem C1_amended_redaction :
    (∀ (buf : List Char) (t0 now : ℚ), buf ≠ [] →
      (∃ kw ∈ SENSITIVE_KEYWORDS,
          strContains (pyLower (String.mk buf)) kw = true) →
      (flush_keystroke_buffer ⟨buf, some t0⟩ now).2
        = [Action.typed_text "[REDACTED]" buf.length
             (if t0 = 0 then now else t0) true])
    ∧ (∀ (x y : Int) (b : String) (t : ℚ) (e : ElementInfo),
        (∃ kw ∈ SENSITIVE_KEYWORDS,
            strContains (pyLower e.name) kw = true
            ∨ strContains (pyLower e.role) kw = true) →
        on_click x y b true t (some e)
          = some (Action.click x y b t (some e) true)) := by
  constructor
  · intro buf t0 now hne hkw
    have hs : classifyTextSensitive (String.mk buf) = true := by
      unfold classifyTextSensitive
      rw [List.any_eq_true]
      obtain ⟨kw, hmem, hsub⟩ := hkw
      exact ⟨kw, hmem, hsub⟩
    rw [flush_sensitive buf t0 now hne hs]
  · intro x y b t e hkw
    have hs : classifyClickSensitive e = true := by
      unfold classifyClickSensitive
      rw [Bool.or_eq_true]
      left
      rw [List.any_eq_true]
      obtain ⟨kw, hmem, hsub⟩ := hkw
      refine ⟨kw, hmem, ?_⟩
      rw [Bool.or_eq_true]
      rcases hsub with h | h
      · exact Or.inl h
      · exact Or.inr h
    simp [on_click, hs]

/-- Witness for C1 (amended) at concrete inputs: the typed text
"my Token" is stored redacted with its original length 8, and a click on
an element named "Password" is appended flagged sensitive with its
element payload intact. -/
theorem C1_amended_witness :
    (flush_keystroke_buffer ⟨"my Token".data, some 2⟩ 7).2
      = [Action.typed_text "[REDACTED]" 8
           (if (2 : ℚ) = 0 then 7 else 2) true]
    ∧ on_click 100 200 "Button.left" true 5 (some passwordFieldElem)
      = some (Action.click 100 200 "Button.left" 5 (some passwordFieldElem)
          true) :=
  ⟨C1_amended_redaction.1 "my Token".data 2 7 (by decide)
      ⟨"token", by decide, by decide⟩,
   C1_amended_redaction.2 100 200 "Button.left" 5 passwordFieldElem
      ⟨"password", by decide, Or.inl (by decide)⟩⟩

/-! ## C5 -/

/-- C5: with the privacy flag set, every image the capture loop writes to
disk is the output of `apply_privacy_blur` on the frame captured in that
iteration — an unblurred frame is never written. The PIL blur and blend
primitives are arbitrary. -/
theorem C5_privacy_blur_before_write {Img : Type}
    (gaussianBlur : Img → Nat → Img) (blend : Img → Img → ℚ → Img)
    (steps : List (CaptureStep Img)) (out : Img)
    (h : out ∈ capture_loop gaussianBlur blend true steps) :
    ∃ step ∈ steps,
      out = apply_privacy_blur gaussianBlur blend step.frame 35 := by
  induction steps with
  | nil => simp [capture_loop] at h
  | cons s rest ih =>
      by_cases h1 : s.stopFileExists
      · simp [capture_loop, h1] at h
      · by_cases h2 : (60 : ℚ) ≤ s.elapsed
        · simp [capture_loop, h1, h2] at h
        · simp only [capture_loop, h1, h2, if_false, if_true,
            Bool.false_eq_true, List.mem_cons] at h
          rcases h with h | h
          · exact ⟨s, List.mem_cons_self s rest, h⟩
          · obtain ⟨st, hst, he⟩ := ih h
            exact ⟨st, List.mem_cons_of_mem s hst, he⟩

/-- Witness for C5 at a concrete input: over naturals with blur modelled
as successor and blend as second projection, the single frame 0 is
written as 2, which is exactly the double-blurred blend of 0. -/
theorem C5_witness :
    ∃ step ∈
        [({ stopFileExists := false, elapsed := 0, frame := 0 } :
            CaptureStep Nat)],
      (2 : Nat) = apply_privacy_blur (fun i _ => i + 1) (fun _ b _ => b)
          step.frame 35 :=
  C5_privacy_blur_before_write (fun i _ => i + 1) (fun _ b _ => b)
    [{ stopFileExists := false, elapsed := 0, frame := 0 }] 2
    (by decide)

/-! ## C6 -/

/-- C6: the pre-flight cost estimate is a pure function of the selected
image count and the action count, equal to the documented formula: input
tokens are image count times 1600 plus a 500-token base plus 20 per
action; output tokens are a fixed 2000; input cost is input tokens over
one million times three dollars; output cost is output tokens over one
million times fifteen dollars (three cents); the total is their sum. -/
theorem C6_estimate_cost_formula (num_screenshots num_actions : Nat) :
    (estimate_cost num_screenshots num_actions).input_tokens
      = num_screenshots * 1600 + (500 + num_actions * 20)
    ∧ (estimate_cost num_screenshots num_actions).output_tokens = 2000
    ∧ (estimate_cost num_screenshots num_actions).input_cost
      = ((num_screenshots * 1600 + (500 + num_actions * 20) : Nat) : ℚ)
          / 1000000 * 3
    ∧ (estimate_cost num_screenshots num_actions).output_cost
      = (2000 : ℚ) / 1000000 * 15
    ∧ (estimate_cost num_screenshots num_actions).output_cost = 3 / 100
    ∧ (estimate_cost num_screenshots num_actions).total_cost
      = (estimate_cost num_screenshots num_actions).input_cost
          + (estimate_cost num_screenshots num_actions).output_cost := by
  refine ⟨rfl, rfl, rfl, rfl, ?_, rfl⟩
  norm_num [estimate_cost]

/-! ## C7 -/

/-- C7: a cost-estimate-only invocation of `compile_recording` that
completes makes no network call, writes no local Skill Artifact and
writes nothing to the external platform skills directory (and on the
error paths nothing is produced at all). -/
theorem C7_cost_only_no_effects (apiKey : Bool) (task : TaskDir)
    (moltbotOk : Bool) (r : CompileResult)
    (h : compile_recording apiKey task true moltbotOk = Except.ok r) :
    r.networkCalled = false ∧ r.skillWritten = false
    ∧ r.moltbotWritten = false := by
  obtain ⟨de, af, ss⟩ := task
  cases apiKey with
  | false => simp [compile_recording] at h
  | true =>
      cases de with
      | false => simp [compile_recording] at h
      | true =>
          by_cases hss : ss.isEmpty
          · simp [compile_recording, hss] at h
          · simp only [compile_recording, hss, Bool.not_true,
              Bool.false_eq_true, if_false, if_true, Except.ok.injEq] at h
            subst h
            exact ⟨rfl, rfl, rfl⟩

/-- Witness for C7 at a concrete input: a task with one screenshot and no
action-log file, compiled in cost-estimate-only mode. -/
theorem C7_witness :
    ({ estimate := estimate_cost 1 0
       actionsUsed := []
       sampledCount := 1
       networkCalled := false
       skillWritten := false
       moltbotWritten := false } : CompileResult).networkCalled = false
    ∧ ({ estimate := estimate_cost 1 0
         actionsUsed := []
         sampledCount := 1
         networkCalled := false
         skillWritten := false
         moltbotWritten := false } : CompileResult).skillWritten = false
    ∧ ({ estimate := estimate_cost 1 0
         actionsUsed := []
         sampledCount := 1
         networkCalled := false
         skillWritten := false
         moltbotWritten := false } : CompileResult).moltbotWritten = false :=
  C7_cost_only_no_effects true
    { dirExists := true, actionsFile := none, screenshots := ["a.png"] }
    true _ rfl

/-! ## C8 -/

/-- C8: compilation fails with an error when the task directory does not
exist, and (given an API key) with a no-screenshots error when the task
has no screenshots; an absent action-log file is not an error — the run
proceeds with the empty action list. The error results carry no
`CompileResult`, so nothing is written on the failure paths. -/
theorem C8_compile_preconditions (apiKey : Bool) (task : TaskDir)
    (cost_only moltbotOk : Bool) :
    (task.dirExists = false →
      ∃ e, compile_recording apiKey task cost_only moltbotOk
            = Except.error e)
    ∧ (apiKey = true → task.dirExists = true → task.screenshots = [] →
        compile_recording apiKey task cost_only moltbotOk
          = Except.error CompileErr.noScreenshots)
    ∧ (apiKey = true → task.dirExists = true → task.screenshots ≠ [] →
        task.actionsFile = none →
        ∃ r, compile_recording apiKey task cost_only moltbotOk
              = Except.ok r
          ∧ r.actionsUsed = []) := by
  obtain ⟨de, af, ss⟩ := task
  refine ⟨?_, ?_, ?_⟩
  · intro hd
    simp only at hd
    subst hd
    cases apiKey with
    | false => exact ⟨CompileErr.noApiKey, by simp [compile_recording]⟩
    | true => exact ⟨CompileErr.notFound, by simp [compile_recording]⟩
  · intro ha hd hs
    simp only at ha hd hs
    subst ha; subst hd; subst hs
    simp [compile_recording]
  · intro ha hd hs hn
    simp only at ha hd hs hn
    subst ha; subst hd; subst hn
    cases ss with
    | nil => exact absurd rfl hs
    | cons x xs =>
        cases cost_only with
        | true => exact ⟨_, rfl, rfl⟩
        | false => exact ⟨_, rfl, rfl⟩

/-- Witness for C8 at concrete inputs: a missing directory yields an
error, a task without screenshots yields the no-screenshots error, and a
task with one screenshot and no action-log file compiles with the empty
action list. -/
theorem C8_witness :
    (∃ e, compile_recording true
        { dirExists := false, actionsFile := none, screenshots := [] }
        false true = Except.error e)
    ∧ compile_recording true
        { dirExists := true, actionsFile := none, screenshots := [] }
        false true = Except.error CompileErr.noScreenshots
    ∧ (∃ r, compile_recording true
          { dirExists := true, actionsFile := none,
            screenshots := ["a.png"] } false true = Except.ok r
        ∧ r.actionsUsed = []) :=
  ⟨(C8_compile_preconditions true
      { dirExists := false, actionsFile := none, screenshots := [] }
      false true).1 rfl,
   (C8_compile_preconditions true
      { dirExists := true, actionsFile := none, screenshots := [] }
      false true).2.1 rfl rfl rfl,
   (C8_compile_preconditions true
      { dirExists := true, actionsFile := none, screenshots := ["a.png"] }
      false true).2.2 rfl rfl (by simp) rfl⟩

/-! ## C9 -/

/-- Looking up any string in the fixed model table yields one of the
three profiles (with the matching key) or nothing. -/
theorem lookup_model_cases (n : String) :
    (SUPPORTED_MODELS.lookup n = some sonnetModel ∧ n = "sonnet")
    ∨ (SUPPORTED_MODELS.lookup n = some opusModel ∧ n = "opus")
    ∨ (SUPPORTED_MODELS.lookup n = some haikuModel ∧ n = "haiku")
    ∨ SUPPORTED_MODELS.lookup n = none := by
  by_cases h1 : n = "sonnet"
  · subst h1; exact Or.inl ⟨rfl, rfl⟩
  · by_cases h2 : n = "opus"
    · subst h2; exact Or.inr (Or.inl ⟨rfl, rfl⟩)
    · by_cases h3 : n = "haiku"
      · subst h3; exact Or.inr (Or.inr (Or.inl ⟨rfl, rfl⟩))
      · refine Or.inr (Or.inr (Or.inr ?_))
        have b1 : (n == "sonnet") = false := beq_eq_false_iff_ne.mpr h1
        have b2 : (n == "opus") = false := beq_eq_false_iff_ne.mpr h2
        have b3 : (n == "haiku") = false := beq_eq_false_iff_ne.mpr h3
        simp [SUPPORTED_MODELS, List.lookup, b1, b2, b3]

/-- C9 counterexample: the empty string is falsy in Python, so
`get_model_config("")` does not warn-and-default — with the environment
variable set to "opus" it resolves to the opus profile with no warning,
although "" is not a recognized model name; this refutes "an unrecognized
name returns the documented default profile after printing a warning". -/
theorem C9_counterexample :
    get_model_config (some "") (some "opus") none = (opusModel, false)
    ∧ opusModel ≠ sonnetModel
    ∧ SUPPORTED_MODELS.lookup (pyLower "") = none := by
  refine ⟨by decide, by decide, by decide⟩

/-- C9 (amended): model resolution always returns one of the fixed
profiles and never errors; for every NON-EMPTY model-name string, a
recognized name (after lowercase folding) returns its profile without a
warning, and an unrecognized one returns the default (sonnet) profile
with a warning. The empty string is treated as an absent name and falls
through to the environment/config/default chain without a warning. -/
theorem C9_amended_model_resolution :
    (∀ name envModel configModel : Option String,
        ∃ p ∈ SUPPORTED_MODELS,
          (get_model_config name envModel configModel).1 = p.2)
    ∧ (∀ (s : String) (envModel configModel : Option String), s ≠ "" →
        (∀ cfg, SUPPORTED_MODELS.lookup (pyLower s) = some cfg →
            get_model_config (some s) envModel configModel = (cfg, false))
        ∧ (SUPPORTED_MODELS.lookup (pyLower s) = none →
            get_model_config (some s) envModel configModel
              = (sonnetModel, true))) := by
  constructor
  · intro name envModel configModel
    rcases lookup_model_cases
        (pyLower (resolveModelName name envModel configModel)) with
      ⟨h, _⟩ | ⟨h, _⟩ | ⟨h, _⟩ | h
    · refine ⟨("sonnet", sonnetModel), by decide, ?_⟩
      unfold get_model_config
      rw [h]
    · refine ⟨("opus", opusModel), by decide, ?_⟩
      unfold get_model_config
      rw [h]
    · refine ⟨("haiku", haikuModel), by decide, ?_⟩
      unfold get_model_config
      rw [h]
    · refine ⟨("sonnet", sonnetModel), by decide, ?_⟩
      unfold get_model_config
      rw [h]
      rfl
  · intro s envModel configModel hs
    have hr : resolveModelName (some s) envModel configModel = s := by
      simp [resolveModelName, truthyStr, hs]
    constructor
    · intro cfg hc
      unfold get_model_config
      rw [hr, hc]
    · intro hc
      unfold get_model_config
      rw [hr, hc]
      rfl

/-- Witness for C9 (amended) at concrete inputs: "OPUS" folds to "opus"
and resolves to the opus profile without a warning, and the unrecognized
name "gpt" resolves to the default profile with a warning. -/
theorem C9_amended_witness :
    get_model_config (some "OPUS") none none = (opusModel, false)
    ∧ get_model_config (some "gpt") none none = (sonnetModel, true) :=
  ⟨(C9_amended_model_resolution.2 "OPUS" none none (by decide)).1
      opusModel (by decide),
   (C9_amended_model_resolution.2 "gpt" none none (by decide)).2
      (by decide)⟩

/-! ## C4 -/

/-- C4: teardown is idempotent on the session files: after one `clear_state`
neither the session-state file nor the stop-signal file exists, and a second
`clear_state` (whose unlinks are guarded by existence checks, so it cannot
error) leaves the on-disk state unchanged, from every starting state. -/
theorem C4_teardown_idempotent (fs : SessionFiles) :
    (clear_state fs).stateFile = false
    ∧ (clear_state fs).stopFile = false
    ∧ clear_state (clear_state fs) = clear_state fs := by
  obtain ⟨a, b⟩ := fs
  cases a <;> cases b <;> decide

end Mimic
